import Mathlib

/-!
Verification of the chat-turn streaming orchestrator of backend4omniai.

This file shallowly embeds the core of `backend/app` — the SSE formatting
helpers, the quota gate, the active-stream manager, the resilient HTTP
transport, the provider adapters' mid-stream line handling, and the
`stream_chat` / `retry_last_turn` orchestration of
`backend/app/services/chat_service.py` — as executable Lean definitions,
and proves the specified properties about them.

Modelling conventions, used throughout:
* Database rows, users, conversations and streams are identified by `Nat`
  ids allocated from a monotone counter (`Db.nextId`); this models the
  `uuid4` generators of the source, whose only relevant property is
  freshness.
* JSON documents are modelled by the inductive `Json` below; numeric
  values are modelled as integers (no claim inspects a fractional value).
  `json.dumps(..., separators=(",", ":"), ensure_ascii=False)` is modelled
  by the compact serializer `Json.dump`.
* A value persisted through `json.dumps` and later read through
  `json.loads` is stored as a `MetaDoc`: either a parsed `Json` value or a
  `malformed` raw string (a document `json.loads` rejects), so that both
  round-tripping and the malformed-metadata failure path are expressible
  without a JSON parser.
* Async generators are embedded as functions of an explicit "script": a
  list of the events the orchestration loop can observe at each await
  point (a chunk arrived, the heartbeat timer fired, the cancel flag was
  observed set, the provider raised, the iterator was exhausted).  Every
  interleaving of the real loop corresponds to a script.
-/

/-- JSON values, as produced and consumed by the service.  Numbers are
modelled as integers. -/
inductive Json where
  | null : Json
  | bool (b : Bool) : Json
  | num (n : Int) : Json
  | str (s : String) : Json
  | arr (xs : List Json) : Json
  | obj (fields : List (String × Json)) : Json
deriving Repr

/-- Minimal JSON string escaping as performed by `json.dumps` with
`ensure_ascii=False`: backslash, double quote and the common control
characters.  Payloads in this development only contain such characters. -/
def jsonEscapeChar (c : Char) : String :=
  if c = '\\' then "\\\\"
  else if c = '\"' then "\\\""
  else if c = '\n' then "\\n"
  else if c = '\r' then "\\r"
  else if c = '\t' then "\\t"
  else String.singleton c

def jsonEscape (s : String) : String :=
  String.join (s.toList.map jsonEscapeChar)

mutual

/-- Compact serialization, mirroring
`json.dumps(payload, separators=(",", ":"), ensure_ascii=False)`. -/
def Json.dump : Json → String
  | .null => "null"
  | .bool true => "true"
  | .bool false => "false"
  | .num n => toString n
  | .str s => "\"" ++ jsonEscape s ++ "\""
  | .arr xs => "[" ++ Json.dumpList xs ++ "]"
  | .obj fs => "\x7b" ++ Json.dumpFields fs ++ "\x7d"

def Json.dumpList : List Json → String
  | [] => ""
  | [x] => Json.dump x
  | x :: rest => Json.dump x ++ "," ++ Json.dumpList rest

def Json.dumpFields : List (String × Json) → String
  | [] => ""
  | [(k, v)] => "\"" ++ jsonEscape k ++ "\":" ++ Json.dump v
  | (k, v) :: rest =>
      "\"" ++ jsonEscape k ++ "\":" ++ Json.dump v ++ "," ++ Json.dumpFields rest

end

/-- `dict.get(key)`: first binding for a key of a JSON object, `none` for
missing keys and non-objects. -/
def Json.get? : Json → String → Option Json
  | .obj fs, k => (fs.find? (fun p => p.1 == k)).map (·.2)
  | _, _ => none

/-- Python truthiness of a JSON value (`not value` in the source). -/
def Json.falsy : Json → Bool
  | .null => true
  | .bool b => !b
  | .num n => n == 0
  | .str s => s == ""
  | .arr xs => xs.isEmpty
  | .obj fs => fs.isEmpty

/-- Python truthiness of `dict.get(key)` (missing keys are `None`). -/
def optFalsy : Option Json → Bool
  | none => true
  | some v => v.falsy

def Json.isObj : Json → Bool
  | .obj _ => true
  | _ => false

/-- String coercion used when a metadata value recovered from JSON flows
back into a `str`-typed position.  System-written metadata stores these
fields as strings; non-string values could never name a registered
provider and are mapped to the empty id, which no registry uses. -/
def jstrD : Json → String
  | .str s => s
  | _ => ""

/-- Stable error codes from `backend/app/core/errors.py` (the subset
reachable from the orchestration core). -/
inductive ErrorCode where
  | INTERNAL_ERROR
  | VALIDATION_ERROR
  | NOT_FOUND
  | RATE_LIMITED
  | QUOTA_EXCEEDED
  | PROVIDER_UNAVAILABLE
  | PROVIDER_ERROR
  | MODEL_NOT_FOUND
  | PROVIDER_BAD_RESPONSE
  | PROVIDER_AUTH_FAILED
deriving Repr, DecidableEq

/-- `ErrorCode.value`: the wire string of each code. -/
def ErrorCode.value : ErrorCode → String
  | .INTERNAL_ERROR => "E1000"
  | .VALIDATION_ERROR => "E1001"
  | .NOT_FOUND => "E1002"
  | .RATE_LIMITED => "E1005"
  | .QUOTA_EXCEEDED => "E2010"
  | .PROVIDER_UNAVAILABLE => "E4000"
  | .PROVIDER_ERROR => "E4001"
  | .MODEL_NOT_FOUND => "E4002"
  | .PROVIDER_BAD_RESPONSE => "E4004"
  | .PROVIDER_AUTH_FAILED => "E4005"

/-- `AppError` of `backend/app/core/errors.py`: code plus message.
Diagnostic `details` payloads are elided (no claim inspects them). -/
structure AppError where
  code : ErrorCode
  message : String
deriving Repr, DecidableEq

/-- `ChatService._format_sse_event` of
`backend/app/services/chat_service.py:409-413`, embedded byte-for-byte.
The source f-string is `f"event: {event}\\ndata: {data}\\n\\n"`: the
doubled backslashes make Python emit the literal two-character sequence
backslash + `n`, not a newline. -/
def format_sse_event (event : String) (payload : Json) : String :=
  "event: " ++ event ++ "\\ndata: " ++ payload.dump ++ "\\n\\n"

/-- `ChatService._format_sse_comment` of
`backend/app/services/chat_service.py:415-418`: `f": {comment}\n\n"`,
with real newlines. -/
def format_sse_comment (comment : String := "ping") : String :=
  ": " ++ comment ++ "\n\n"

/-- The SSE wire frame the specification mandates for a named event:
`event: <name>` newline `data: <json>` newline newline, `<json>` compact.
Stated from the spec's words, for comparison with `format_sse_event`. -/
def sse_event_wire_spec (event : String) (payload : Json) : String :=
  "event: " ++ event ++ "\n" ++ "data: " ++ payload.dump ++ "\n\n"

/-- A stored `provider_meta` column value: the column holds JSON text;
`json` is a document `json.loads` parses back, `malformed` one it
rejects. -/
inductive MetaDoc where
  | json (j : Json) : MetaDoc
  | malformed (raw : String) : MetaDoc
deriving Repr

/-- A row of the `messages` table (`backend/app/db/models.py`), restricted
to the columns the orchestration core reads or writes.  `created_at` is
the insertion index (strictly monotone, as row timestamps are). -/
structure MessageRow where
  id : Nat
  conversation_id : Nat
  role : String
  content : String
  provider : Option String := none
  model : Option String := none
  prompt_tokens : Option Nat := none
  completion_tokens : Option Nat := none
  total_tokens : Option Nat := none
  provider_meta : Option MetaDoc := none
  created_at : Nat
deriving Repr

/-- A row of the `conversations` table, restricted to the columns the
core reads or writes. -/
structure ConversationRow where
  id : Nat
  user_id : Nat
  model : Option String := none
deriving Repr

/-- `UserQuota` row: per-day limits, `none` meaning unlimited. -/
structure UserQuota where
  messages_per_day : Option Nat := none
  tokens_per_day : Option Nat := none
deriving Repr, DecidableEq

/-- `UsageCounter` row for one user and the current UTC day. -/
structure UsageCounter where
  messages_used : Nat := 0
  tokens_used : Nat := 0
deriving Repr, DecidableEq

/-- The persistent state visible to the orchestration core.  Counters are
keyed by user id alone: a single `stream_chat` call reads and writes only
the current UTC day's counter, so one day is modelled.  `nextId`
allocates fresh ids (message ids and stream ids; `uuid4` in the
source). -/
structure Db where
  conversations : List ConversationRow
  messages : List MessageRow
  quotas : List (Nat × UserQuota)
  counters : List (Nat × UsageCounter)
  nextId : Nat
deriving Repr

def lookupBy {α : Type} (l : List (Nat × α)) (k : Nat) : Option α :=
  (l.find? (fun p => p.1 == k)).map (·.2)

/-- `get_user_conversation`
(`backend/app/db/repositories/conversation.py:31-42`): the conversation
with the given id, provided it is owned by the user. -/
def get_user_conversation (db : Db) (user_id conversation_id : Nat) :
    Option ConversationRow :=
  db.conversations.find? (fun c => c.id == conversation_id && c.user_id == user_id)

/-- `get_conversation_messages`: all messages of a conversation ordered
by creation time (the list is kept in insertion order). -/
def get_conversation_messages (db : Db) (conversation_id : Nat) : List MessageRow :=
  db.messages.filter (fun m => m.conversation_id == conversation_id)

/-- `create_message`
(`backend/app/db/repositories/conversation.py:78-106`): insert a message
row; the id is freshly allocated and `created_at` is the insertion
index. -/
def create_message (db : Db) (conversation_id : Nat) (role content : String)
    (provider : Option String := none) (model : Option String := none)
    (provider_meta : Option MetaDoc := none) : Db × MessageRow :=
  let row : MessageRow :=
    { id := db.nextId
      conversation_id := conversation_id
      role := role
      content := content
      provider := provider
      model := model
      provider_meta := provider_meta
      created_at := db.messages.length }
  ({ db with messages := db.messages ++ [row], nextId := db.nextId + 1 }, row)

/-- `get_last_user_message`: the most recent user message of the
conversation (newest `created_at` first). -/
def get_last_user_message (db : Db) (conversation_id : Nat) : Option MessageRow :=
  (db.messages.filter
    (fun m => m.conversation_id == conversation_id && m.role == "user")).getLast?

/-- `get_last_assistant_message_after`: the most recent assistant message
of the conversation with `created_at >= after`. -/
def get_last_assistant_message_after (db : Db) (conversation_id : Nat)
    (after : Nat) : Option MessageRow :=
  (db.messages.filter (fun m =>
    m.conversation_id == conversation_id && m.role == "assistant"
      && after ≤ m.created_at)).getLast?

/-- `get_user_quota` (`backend/app/db/repositories/quota.py`). -/
def get_user_quota (db : Db) (user_id : Nat) : Option UserQuota :=
  lookupBy db.quotas user_id

/-- `get_usage_counter` for the current day. -/
def get_usage_counter (db : Db) (user_id : Nat) : Option UsageCounter :=
  lookupBy db.counters user_id

/-- `increment_usage_counter`
(`backend/app/db/repositories/quota.py:70-91`): add to the user's counter
for the day, creating a zeroed row when absent. -/
def increment_usage_counter (db : Db) (user_id : Nat)
    (messages tokens : Nat) : Db :=
  match lookupBy db.counters user_id with
  | some _ =>
      { db with counters := db.counters.map (fun p =>
          if p.1 == user_id then
            (p.1, { messages_used := p.2.messages_used + messages
                    tokens_used := p.2.tokens_used + tokens })
          else p) }
  | none =>
      { db with counters :=
          db.counters ++ [(user_id, { messages_used := messages, tokens_used := tokens })] }

/-- `ChatService._enforce_quota`
(`backend/app/services/chat_service.py:456-476`): raise `QuotaExceeded`
when either daily limit is met or exceeded; users without a quota row are
unlimited. -/
def enforce_quota (db : Db) (user_id : Nat) : Except AppError Unit :=
  match get_user_quota db user_id with
  | none => .ok ()
  | some quota =>
    let messages_used := ((get_usage_counter db user_id).map (·.messages_used)).getD 0
    let tokens_used := ((get_usage_counter db user_id).map (·.tokens_used)).getD 0
    match quota.messages_per_day with
    | some limit =>
        if limit ≤ messages_used then
          .error ⟨.QUOTA_EXCEEDED, "Daily message quota exceeded"⟩
        else
          match quota.tokens_per_day with
          | some tlimit =>
              if tlimit ≤ tokens_used then
                .error ⟨.QUOTA_EXCEEDED, "Daily token quota exceeded"⟩
              else .ok ()
          | none => .ok ()
    | none =>
        match quota.tokens_per_day with
        | some tlimit =>
            if tlimit ≤ tokens_used then
              .error ⟨.QUOTA_EXCEEDED, "Daily token quota exceeded"⟩
            else .ok ()
        | none => .ok ()

/-- `ActiveStream` (`backend/app/services/chat_service.py:43-52`): the
in-flight stream record held by the manager.  `canceled` models the
`asyncio.Event` cancellation flag; `taskRunning` whether the driving task
is still running, `taskCancelRequested` whether `task.cancel()` was
requested as the fallback. -/
structure ActiveStream where
  stream_id : Nat
  user_id : Nat
  conversation_id : Nat
  canceled : Bool := false
  taskRunning : Bool := true
  taskCancelRequested : Bool := false
deriving Repr, DecidableEq

/-- `ActiveStreamManager` (`backend/app/services/chat_service.py:55-103`):
the mutex-guarded table `stream_id -> ActiveStream`.  Each operation runs
under the single lock, so operations are modelled as atomic state
transitions. -/
structure StreamManager where
  streams : List (Nat × ActiveStream)
deriving Repr, DecidableEq

def StreamManager.find (m : StreamManager) (stream_id : Nat) : Option ActiveStream :=
  lookupBy m.streams stream_id

/-- `ActiveStreamManager.register`: track a new stream. -/
def StreamManager.register (m : StreamManager) (stream_id user_id conversation_id : Nat) :
    StreamManager :=
  { streams := m.streams ++
      [(stream_id, { stream_id := stream_id, user_id := user_id
                     conversation_id := conversation_id })] }

/-- `ActiveStreamManager.unregister`: stop tracking a stream, returning
the record if it was tracked. -/
def StreamManager.unregister (m : StreamManager) (stream_id : Nat) :
    StreamManager × Option ActiveStream :=
  ({ streams := m.streams.filter (fun p => p.1 != stream_id) }, m.find stream_id)

/-- `ActiveStreamManager.cancel`
(`backend/app/services/chat_service.py:89-98`): succeed only when the
stream is tracked and owned by the requester; set the cancellation flag
and, when the driving task is still running, request its cancellation.
The table entry itself is not removed. -/
def StreamManager.cancel (m : StreamManager) (stream_id user_id : Nat) :
    StreamManager × Bool :=
  match m.find stream_id with
  | none => (m, false)
  | some s =>
      if s.user_id ≠ user_id then (m, false)
      else
        (⟨m.streams.map (fun p =>
            if p.1 == stream_id then
              (p.1, { p.2 with
                        canceled := true
                        taskCancelRequested := p.2.taskCancelRequested || p.2.taskRunning })
            else p)⟩,
         true)

/-- One attempt's outcome at the network layer, as distinguished by the
`except` clauses of `request_with_retries`
(`backend/app/providers/http_client.py:57-104`): a network-level failure
(`ConnectError`/`ReadTimeout`/`WriteTimeout`/`NetworkError`/
`TimeoutException`), some other `httpx.HTTPError`, or a response bearing
a status code and body. -/
inductive NetAttempt where
  | netErr : NetAttempt
  | httpErr : NetAttempt
  | resp (status : Nat) (body : String) : NetAttempt
deriving Repr, DecidableEq

/-- The backoff slept before retry attempt `attempt + 1`:
`min(0.1 * (attempt + 1), 1.0)` seconds, modelled exactly in ℚ. -/
def retryBackoff (attempt : Nat) : ℚ :=
  min ((attempt + 1 : ℚ) / 10) 1

/-- The retry loop of `request_with_retries` /`stream_with_retries`,
indexed by the current attempt number and the remaining retry budget.
Returns the backoffs slept, and either the first response obtained or
the error raised after exhaustion (`ProviderUnavailable` for network
failures, generic `ProviderError` for other request-level errors). -/
def requestAttempts (script : Nat → NetAttempt) :
    Nat → Nat → List ℚ × Except AppError (Nat × String)
  | attempt, remaining =>
    match script attempt, remaining with
    | .resp status body, _ => ([], .ok (status, body))
    | .netErr, 0 => ([], .error ⟨.PROVIDER_UNAVAILABLE, "Provider unavailable"⟩)
    | .netErr, r + 1 =>
        let rest := requestAttempts script (attempt + 1) r
        (retryBackoff attempt :: rest.1, rest.2)
    | .httpErr, 0 => ([], .error ⟨.PROVIDER_ERROR, "Provider request failed"⟩)
    | .httpErr, r + 1 =>
        let rest := requestAttempts script (attempt + 1) r
        (retryBackoff attempt :: rest.1, rest.2)

/-- `request_with_retries` (`backend/app/providers/http_client.py:57-104`):
`for attempt in range(max_retries + 1)`, returning the first response
(whatever its status code) and retrying only raised transport errors. -/
def request_with_retries (max_retries : Nat) (script : Nat → NetAttempt) :
    List ℚ × Except AppError (Nat × String) :=
  requestAttempts script 0 max_retries

/-- `raise_for_status` (`backend/app/providers/http_client.py:154-172`):
map a response's status code to the stable error taxonomy, pass `<400`
through. -/
def raise_for_status (status : Nat) : Except AppError Unit :=
  if status < 400 then .ok ()
  else if status == 401 || status == 403 then
    .error ⟨.PROVIDER_AUTH_FAILED, "Provider authentication failed"⟩
  else if status == 404 then .error ⟨.MODEL_NOT_FOUND, "Model not found"⟩
  else if status == 429 then .error ⟨.RATE_LIMITED, "Rate limit exceeded"⟩
  else if 500 ≤ status then .error ⟨.PROVIDER_UNAVAILABLE, "Provider unavailable"⟩
  else .error ⟨.PROVIDER_ERROR, "Provider error"⟩

/-- `ChatChunk` (`backend/app/providers/base.py:68-73`): the unit of a
provider's streamed sequence. -/
structure ChatChunk where
  content : String
  finish_reason : Option String := none
  model : Option String := none
deriving Repr, DecidableEq

/-- Python truthiness of an optional string (`None` and `""` falsy). -/
def strFalsy : Option String → Bool
  | none => true
  | some s => s == ""

def optStrJson : Option String → Json
  | none => .null
  | some s => .str s

/-- The wire frames yielded by the orchestration generator: a named SSE
event carrying a JSON payload, or an SSE comment (heartbeat). -/
inductive Frame where
  | event (name : String) (payload : Json) : Frame
  | comment (text : String) : Frame
deriving Repr

/-- Serialization of a frame, through the service's formatters. -/
def Frame.wire : Frame → String
  | .event name payload => format_sse_event name payload
  | .comment text => format_sse_comment text

def Frame.isNamedEvent : Frame → Bool
  | .event _ _ => true
  | .comment _ => false

/-- The `base_meta` dict built at `chat_service.py:141-145`: always
exactly the keys `provider_id`, `model`, `settings`. -/
structure BaseMeta where
  provider_id : String
  model : String
  settings : List (String × Json)
deriving Repr

/-- `json.dumps(base_meta)` as stored on the assistant placeholder row. -/
def baseMetaJson (b : BaseMeta) : Json :=
  .obj [("provider_id", .str b.provider_id), ("model", .str b.model),
        ("settings", .obj b.settings)]

/-- `ChatService._build_provider_meta`
(`backend/app/services/chat_service.py:420-442`): the metadata document
persisted with the assistant message, in the source's key insertion
order.  `finish_reason` is added only when truthy, `error` only when
present (its `details` elided, as above). -/
def build_provider_meta (base : BaseMeta) (stream_id : Nat)
    (request_id : Option String) (canceled : Bool)
    (finish_reason : Option String) (error : Option AppError) : Json :=
  .obj ([("provider_id", .str base.provider_id), ("model", .str base.model),
         ("settings", .obj base.settings),
         ("stream_id", .num stream_id),
         ("request_id", optStrJson request_id),
         ("canceled", .bool canceled),
         ("completed", .bool (!canceled && error.isNone))]
    ++ (if strFalsy finish_reason then []
        else [("finish_reason", .str (finish_reason.getD ""))])
    ++ (match error with
        | some e => [("error", .obj [("code", .str e.code.value),
                                     ("message", .str e.message)])]
        | none => []))

/-- `ChatService._build_token_usage`
(`backend/app/services/chat_service.py:444-454`): token counts present on
the message row. -/
def build_token_usage (row : Option MessageRow) : List (String × Nat) :=
  match row with
  | none => []
  | some m =>
      (match m.prompt_tokens with | some n => [("prompt_tokens", n)] | none => [])
      ++ (match m.completion_tokens with | some n => [("completion_tokens", n)] | none => [])
      ++ (match m.total_tokens with | some n => [("total_tokens", n)] | none => [])

/-- `ChatService._finalize_assistant_message`
(`backend/app/services/chat_service.py:478-516`): build the metadata
document, write content/provider/model/metadata onto the assistant row,
increment the usage counter only on the success path (`+1` message, plus
the row's `total_tokens or 0`), stamp the conversation's model, and
commit once.  Returns the updated state, the metadata document, and the
token-usage summary. -/
def finalize_assistant_message (db : Db) (conversationId messageId : Nat)
    (base : BaseMeta) (stream_id : Nat) (request_id : Option String)
    (content : String) (provider_id model : String) (user_id : Nat)
    (increment_usage canceled : Bool) (finish_reason : Option String)
    (error : Option AppError) : Db × Json × List (String × Nat) :=
  let base := { base with model := model }
  let meta := build_provider_meta base stream_id request_id canceled finish_reason error
  let db1 : Db := { db with messages := db.messages.map (fun m =>
      if m.id == messageId then
        { m with content := content, provider := some provider_id,
                 model := some model, provider_meta := some (.json meta) }
      else m) }
  let row := db.messages.find? (fun m => m.id == messageId)
  let tokens := (row.bind (·.total_tokens)).getD 0
  let db2 := if increment_usage && !canceled && error.isNone then
      increment_usage_counter db1 user_id 1 tokens
    else db1
  let db3 : Db := { db2 with conversations := db2.conversations.map (fun c =>
      if c.id == conversationId then { c with model := some model } else c) }
  let rowAfter := db3.messages.find? (fun m => m.id == messageId)
  (db3, meta, build_token_usage rowAfter)

/-- What the streaming loop can observe at one await point:
the heartbeat timer fired before a chunk (`TimeoutError`), a chunk
arrived, the cancellation flag was observed set (or the driving task's
cancellation was delivered), the provider raised a mapped application
error, or an unexpected exception occurred.  Exhaustion of the provider
iterator (`StopAsyncIteration`) is the end of the script. -/
inductive LoopEvent where
  | timeout : LoopEvent
  | chunk (c : ChatChunk) : LoopEvent
  | cancel : LoopEvent
  | appError (e : AppError) : LoopEvent
  | exn : LoopEvent
deriving Repr

/-- The loop's accumulator (`assistant_content`, `finish_reason`,
`resolved_model` of `chat_service.py:195-197`). -/
structure LoopState where
  assistant_content : String
  finish_reason : Option String
  resolved_model : String
deriving Repr, DecidableEq

/-- The three mutually exclusive finalize outcomes of the loop. -/
inductive StreamOutcome where
  | success : StreamOutcome
  | canceled : StreamOutcome
  | errored (e : AppError) : StreamOutcome
deriving Repr, DecidableEq

/-- Per-chunk accumulator update (`chat_service.py:218-225`): the
resolved model is replaced by a truthy `chunk.model`, truthy content is
appended to `assistant_content`, and a truthy `chunk.finish_reason` is
recorded. -/
def stepChunk (st : LoopState) (c : ChatChunk) : LoopState :=
  let st1 := { st with resolved_model :=
    match c.model with
    | some m => if m == "" then st.resolved_model else m
    | none => st.resolved_model }
  let st2 :=
    if c.content == "" then st1
    else { st1 with assistant_content := st1.assistant_content ++ c.content }
  { st2 with finish_reason :=
    match c.finish_reason with
    | some fr => if fr == "" then st2.finish_reason else some fr
    | none => st2.finish_reason }

/-- The frames a chunk yields (`chat_service.py:220-223`): one `delta`
frame for truthy content, nothing for an empty chunk. -/
def chunkFrames (c : ChatChunk) : List Frame :=
  if c.content == "" then []
  else [Frame.event "delta" (.obj [("text", .str c.content)])]

/-- The chunk-pulling loop of `event_generator`
(`backend/app/services/chat_service.py:199-227`): heartbeat timeouts emit
an SSE comment and continue with the same iterator; a chunk updates the
accumulator via `stepChunk` while emitting `chunkFrames`; an observed
cancellation, a provider error, or an unexpected exception terminates the
loop with the corresponding outcome; running off the end of the script is
`StopAsyncIteration`, the success outcome. -/
def runLoop : List LoopEvent → LoopState → List Frame × StreamOutcome × LoopState
  | [], st => ([], .success, st)
  | .timeout :: rest, st =>
      let r := runLoop rest st
      (.comment "ping" :: r.1, r.2)
  | .chunk c :: rest, st =>
      let r := runLoop rest (stepChunk st c)
      (chunkFrames c ++ r.1, r.2)
  | .cancel :: _, st => ([], .canceled, st)
  | .appError e :: _, st => ([], .errored e, st)
  | .exn :: _, st =>
      ([], .errored ⟨.INTERNAL_ERROR, "An unexpected error occurred"⟩, st)

/-- The `final` frame payload (`chat_service.py:249-255, 274-280`):
`message_id` and `provider_meta`, plus `token_usage` when non-empty. -/
def finalPayload (messageId : Nat) (meta : Json) (usage : List (String × Nat)) : Json :=
  .obj ([("message_id", .num messageId), ("provider_meta", meta)]
    ++ (if usage.isEmpty then []
        else [("token_usage", .obj (usage.map (fun p => (p.1, Json.num (p.2 : Int)))))]))

/-- `event_generator` (`backend/app/services/chat_service.py:178-354`),
fully consumed: the `meta` frame first, then the loop's frames, then the
single terminal frame — `final` after exhaustion, `final` with canceled
metadata after cancellation, or `error` after a caught exception — with
the matching finalize call.  Registration/unregistration with the stream
manager does not touch the persistent state and is modelled separately. -/
def event_generator (db : Db) (conv : ConversationRow) (asstId : Nat)
    (base : BaseMeta) (stream_id : Nat) (request_id : Option String)
    (provider_id model : String) (user_id : Nat) (script : List LoopEvent) :
    Db × List Frame :=
  let metaPayload : Json :=
    .obj [("stream_id", .num stream_id), ("conversation_id", .num conv.id),
          ("provider_id", .str provider_id), ("model", .str model),
          ("request_id", optStrJson request_id)]
  let r := runLoop script ⟨"", none, model⟩
  let st := r.2.2
  match r.2.1 with
  | .success =>
      let f := finalize_assistant_message db conv.id asstId base stream_id request_id
        st.assistant_content provider_id st.resolved_model user_id
        true false st.finish_reason none
      (f.1, Frame.event "meta" metaPayload :: r.1
              ++ [Frame.event "final" (finalPayload asstId f.2.1 f.2.2)])
  | .canceled =>
      let f := finalize_assistant_message db conv.id asstId base stream_id request_id
        st.assistant_content provider_id st.resolved_model user_id
        false true st.finish_reason none
      (f.1, Frame.event "meta" metaPayload :: r.1
              ++ [Frame.event "final" (finalPayload asstId f.2.1 f.2.2)])
  | .errored e =>
      let f := finalize_assistant_message db conv.id asstId base stream_id request_id
        st.assistant_content provider_id st.resolved_model user_id
        false false st.finish_reason (some e)
      (f.1, Frame.event "meta" metaPayload :: r.1
              ++ [Frame.event "error"
                    (.obj [("code", .str e.code.value), ("message", .str e.message),
                           ("request_id", optStrJson request_id)])])

/-- The outcome of a `stream_chat` call that reached streaming. -/
structure StreamOut where
  db : Db
  frames : List Frame
  stream_id : Nat
  user_msg_id : Nat
  asst_msg_id : Nat
deriving Repr

/-- `ChatService.stream_chat`
(`backend/app/services/chat_service.py:114-354`): ownership check, quota
gate, persist the user row then the assistant placeholder (carrying
`base_meta`), allocate a fresh `stream_id`, resolve the provider, and run
the generator.  The conversation history load and `ChatRequest` assembly
are elided: the frames are driven by the provider script.  The registry
is the set of registered provider ids (`ProviderRegistry.get` raises
`NotFound` for others — after the two rows were persisted, as in the
source). -/
def stream_chat (db : Db) (registry : List String) (user_id conversation_id : Nat)
    (provider_id model : String) (user_input : String)
    (settings : List (String × Json)) (request_id : Option String)
    (script : List LoopEvent) : Db × Except AppError StreamOut :=
  match get_user_conversation db user_id conversation_id with
  | none => (db, .error ⟨.NOT_FOUND, "Conversation not found"⟩)
  | some conv =>
    match enforce_quota db user_id with
    | .error e => (db, .error e)
    | .ok _ =>
      let r1 := create_message db conversation_id "user" user_input
      let base : BaseMeta := ⟨provider_id, model, settings⟩
      let r2 := create_message r1.1 conversation_id "assistant" ""
        (some provider_id) (some model) (some (.json (baseMetaJson base)))
      let db2 := r2.1
      let stream_id := db2.nextId
      let db3 : Db := { db2 with nextId := db2.nextId + 1 }
      if registry.contains provider_id then
        let g := event_generator db3 conv r2.2.id base stream_id request_id
          provider_id model user_id script
        (g.1, .ok ⟨g.1, g.2, stream_id, r1.2.id, r2.2.id⟩)
      else
        (db3, .error ⟨.NOT_FOUND, "Provider not found"⟩)

/-- `ChatService.retry_last_turn`
(`backend/app/services/chat_service.py:356-403`): locate the last user
message and the assistant message at or after it, parse that assistant's
`provider_meta`, recover `provider_id`/`model`/`settings` (failing with
`Validation` on absent or malformed metadata or falsy
`provider_id`/`model`), and invoke `stream_chat` again with the same
input. -/
def retry_last_turn (db : Db) (registry : List String)
    (user_id conversation_id : Nat) (request_id : Option String)
    (script : List LoopEvent) : Db × Except AppError StreamOut :=
  match get_user_conversation db user_id conversation_id with
  | none => (db, .error ⟨.NOT_FOUND, "Conversation not found"⟩)
  | some _ =>
    match get_last_user_message db conversation_id with
    | none => (db, .error ⟨.VALIDATION_ERROR, "No user message to retry"⟩)
    | some lastUser =>
      match get_last_assistant_message_after db conversation_id lastUser.created_at with
      | none =>
          (db, .error ⟨.VALIDATION_ERROR, "Cannot retry without previous assistant metadata"⟩)
      | some lastAsst =>
        match lastAsst.provider_meta with
        | none =>
            (db, .error ⟨.VALIDATION_ERROR, "Cannot retry without previous assistant metadata"⟩)
        | some (.malformed _) =>
            (db, .error ⟨.VALIDATION_ERROR, "Invalid provider metadata for retry"⟩)
        | some (.json meta) =>
          if !meta.isObj then
            (db, .error ⟨.VALIDATION_ERROR, "Invalid provider metadata for retry"⟩)
          else
            let provider_id? := meta.get? "provider_id"
            let model? := meta.get? "model"
            let settings := match meta.get? "settings" with
              | some (.obj fs) => fs
              | _ => []
            if optFalsy provider_id? || optFalsy model? then
              (db, .error ⟨.VALIDATION_ERROR, "Provider metadata missing model or provider"⟩)
            else
              stream_chat db registry user_id conversation_id
                (jstrD (provider_id?.getD .null)) (jstrD (model?.getD .null))
                lastUser.content settings request_id script

/-- The two rows `stream_chat` persists before streaming (steps 3-4 of
the orchestration): the user message and the empty assistant placeholder
carrying `base_meta`, plus the subsequent fresh stream-id allocation.
Abbreviates the corresponding let-chain of `stream_chat` for the
lemmas. -/
def persistTurn (db : Db) (cid : Nat) (input pid model : String)
    (settings : List (String × Json)) : Db :=
  let r1 := create_message db cid "user" input
  let base : BaseMeta := ⟨pid, model, settings⟩
  let r2 := create_message r1.1 cid "assistant" "" (some pid) (some model)
    (some (.json (baseMetaJson base)))
  { r2.1 with nextId := r2.1.nextId + 1 }

/-- One line of Ollama's newline-delimited JSON stream, as the cases of
`OllamaProvider.chat_stream` (`backend/app/providers/ollama.py:182-211`)
distinguish them: an empty line, a line `json.loads` rejects, or a parsed
object.  For a parsed object, `messageContent` is
`(chunk_obj.get("message") or {}).get("content")` (missing `message` or
`content` keys give `none`), `done` / `doneReason` / `finishReason` /
`model` the corresponding keys. -/
inductive OllamaLine where
  | blank : OllamaLine
  | bad (raw : String) : OllamaLine
  | obj (messageContent : Option String) (done : Bool)
      (doneReason : Option String) (finishReason : Option String)
      (model : Option String) : OllamaLine
deriving Repr

/-- The line loop of `OllamaProvider.chat_stream`
(`backend/app/providers/ollama.py:182-211`): skip empty lines; raise
`ProviderBadResponse` on undecodable JSON; compute the content (missing
keys coalesce to `""`) and the finish signal (`done_reason` when `done`,
else `finish_reason`); skip chunks with neither; otherwise yield a
`ChatChunk` (model defaulting to the request's) and stop after a `done`
chunk. -/
def ollama_process_lines (reqModel : String) :
    List OllamaLine → Except AppError (List ChatChunk)
  | [] => .ok []
  | .blank :: rest => ollama_process_lines reqModel rest
  | .bad _ :: _ =>
      .error ⟨.PROVIDER_BAD_RESPONSE, "Provider returned invalid response"⟩
  | .obj mc done dr fr mdl :: rest =>
      let content := mc.getD ""
      let finish := if done then dr else fr
      if content == "" && strFalsy finish then
        ollama_process_lines reqModel rest
      else
        let chunk : ChatChunk := ⟨content, finish, some (mdl.getD reqModel)⟩
        if done then .ok [chunk]
        else
          match ollama_process_lines reqModel rest with
          | .ok cs => .ok (chunk :: cs)
          | .error e => .error e

/-- One SSE line of the OpenAI-compatible adapter's stream, as the cases
of `OpenAICompatProvider.chat_stream`
(`backend/app/providers/openai_compat.py:178-206`) distinguish them:
a stripped-empty or non-`data: `-prefixed line, the literal `[DONE]`
payload, a payload `json.loads` rejects, or a parsed chunk object.  For a
parsed object, `deltaContent` is `choices[0].delta.content` when
`choices` is non-empty and `delta` carries a `content` key (else `none`),
and `usage` the `usage` key's value when present. -/
inductive OaiLine where
  | skip : OaiLine
  | doneMark : OaiLine
  | bad (raw : String) : OaiLine
  | obj (deltaContent : Option String) (usage : Option Json) : OaiLine
deriving Repr

/-- `StreamEvent` of the OpenAI-compatible adapter variant. -/
inductive StreamEvent where
  | delta (s : String) : StreamEvent
  | usage (u : Json) : StreamEvent
  | done : StreamEvent
deriving Repr

/-- The line loop of `OpenAICompatProvider.chat_stream`
(`backend/app/providers/openai_compat.py:178-206`): skip blank and
non-`data: ` lines, stop with a `done` event on `[DONE]`, and —
`except json.JSONDecodeError: continue` — silently skip lines whose
payload does not decode; a decoded object contributes a `delta` and/or a
`usage` event according to the keys it carries. -/
def openai_compat_process_lines : List OaiLine → List StreamEvent
  | [] => []
  | .skip :: rest => openai_compat_process_lines rest
  | .doneMark :: _ => [.done]
  | .bad _ :: rest => openai_compat_process_lines rest
  | .obj dc usage :: rest =>
      (match dc with | some s => [StreamEvent.delta s] | none => [])
      ++ (match usage with | some u => [StreamEvent.usage u] | none => [])
      ++ openai_compat_process_lines rest

/-- Id-freshness invariant maintained by the system: every persisted
message id was allocated below the current counter. -/
def DbWf (db : Db) : Prop := ∀ m ∈ db.messages, m.id < db.nextId

def Frame.isDelta : Frame → Bool
  | .event "delta" _ => true
  | _ => false

/-- The text carried by a `delta` frame (empty for any other frame). -/
def deltaText : Frame → String
  | .event "delta" p =>
      match p.get? "text" with
      | some (.str s) => s
      | _ => ""
  | _ => ""

/-- In-order concatenation of the text fields of the `delta` frames of a
frame sequence. -/
def concatDeltaTexts : List Frame → String
  | [] => ""
  | f :: rest => deltaText f ++ concatDeltaTexts rest

/-- The frame-sequence shape asserted for a consumed stream: among the
named event frames, exactly one `meta` frame first (carrying the stream
id), then zero or more `delta` frames, then exactly one terminal frame —
`final` (whose `provider_meta.stream_id` equals the `meta` frame's
stream id) or `error`. -/
def framesWellFormed (frames : List Frame) (sid : Nat) : Prop :=
  ∃ p mid t,
    frames.filter Frame.isNamedEvent = Frame.event "meta" p :: mid ++ [t] ∧
    p.get? "stream_id" = some (.num sid) ∧
    (∀ f ∈ mid, Frame.isDelta f = true) ∧
    ((∃ q, t = Frame.event "final" q ∧
        (q.get? "provider_meta").bind (fun m => m.get? "stream_id") =
          some (.num sid)) ∨
     (∃ q, t = Frame.event "error" q))

/-- Metadata from which `retry_last_turn` cannot recover a provider and
model: an absent column, a document `json.loads` rejects, a non-object
document, or a falsy `provider_id`/`model`. -/
def metaUnrecoverable : Option MetaDoc → Bool
  | none => true
  | some (.malformed _) => true
  | some (.json j) =>
      !j.isObj || optFalsy (j.get? "provider_id") || optFalsy (j.get? "model")

/-- The settings `retry_last_turn` recovers: the `settings` key when it
is a JSON object, `\x7b\x7d` otherwise. -/
def settingsFields (meta : Json) : List (String × Json) :=
  match meta.get? "settings" with
  | some (.obj fs) => fs
  | _ => []

/-- Fixtures used by the concrete witness instantiations. -/
def sampleConv : ConversationRow := { id := 3, user_id := 7 }

def sampleDb : Db :=
  { conversations := [sampleConv], messages := [], quotas := [], counters := []
    nextId := 10 }

def sampleScript : List LoopEvent :=
  [.chunk { content := "Hello " }, .chunk { content := "world", finish_reason := some "stop" }]

def sampleRun : Db × Except AppError StreamOut :=
  stream_chat sampleDb ["ollama"] 7 3 "ollama" "m1" "Hi" [] (some "req-1") sampleScript

def sampleOut : StreamOut :=
  match sampleRun.2 with
  | .ok o => o
  | .error _ => { db := sampleDb, frames := [], stream_id := 0, user_msg_id := 0, asst_msg_id := 0 }

/-- A state in which user 7 has a one-message-per-day quota already used
up. -/
def quotaDb : Db :=
  { conversations := [sampleConv], messages := []
    quotas := [(7, { messages_per_day := some 1 })]
    counters := [(7, { messages_used := 1 })]
    nextId := 10 }

/-- A prior completed turn whose assistant metadata records provider
`ollama`, model `m1` and stream id 5. -/
def retryMetaJson : Json :=
  .obj [("provider_id", .str "ollama"), ("model", .str "m1"),
        ("settings", .obj []), ("stream_id", .num 5)]

def retryUserRow : MessageRow :=
  { id := 0, conversation_id := 3, role := "user", content := "Hi", created_at := 0 }

def retryAsstRow : MessageRow :=
  { id := 1, conversation_id := 3, role := "assistant", content := "Hello"
    provider := some "ollama", model := some "m1"
    provider_meta := some (.json retryMetaJson), created_at := 1 }

def retryDb : Db :=
  { conversations := [sampleConv], messages := [retryUserRow, retryAsstRow]
    quotas := [], counters := [], nextId := 10 }

/-- The same state with the assistant metadata column holding text
`json.loads` rejects. -/
def badRetryDb : Db :=
  { retryDb with messages :=
      [retryUserRow, { retryAsstRow with provider_meta := some (.malformed "not json") }] }

def retryRun : Db × Except AppError StreamOut :=
  retry_last_turn retryDb ["ollama"] 7 3 none []

def retryOut : StreamOut :=
  match retryRun.2 with
  | .ok o => o
  | .error _ => { db := retryDb, frames := [], stream_id := 0, user_msg_id := 0, asst_msg_id := 0 }

def respScript : Nat → NetAttempt := fun _ => .resp 429 "rate limited"

def netErrScript : Nat → NetAttempt := fun _ => .netErr

def sampleManager : StreamManager :=
  ⟨[(1, { stream_id := 1, user_id := 7, conversation_id := 3 })]⟩

/-! Supporting lemmas. -/

theorem lookupBy_map_upd {α : Type} (l : List (Nat × α)) (k : Nat) (g : α → α) :
    lookupBy (l.map (fun p => if p.1 == k then (p.1, g p.2) else p)) k =
      (lookupBy l k).map g := by
  induction l with
  | nil => rfl
  | cons hd tl ih =>
    rcases hd with ⟨k', a⟩
    simp only [List.map_cons]
    by_cases h : k' = k
    · subst h
      simp only [lookupBy, beq_self_eq_true, if_pos]
      rw [List.find?_cons_of_pos _ (by simp), List.find?_cons_of_pos _ (by simp)]
      rfl
    · rw [if_neg (by simp [h])]
      simp only [lookupBy] at ih ⊢
      rw [List.find?_cons_of_neg _ (by simp [h]), List.find?_cons_of_neg _ (by simp [h])]
      exact ih

theorem lookupBy_append {α : Type} (l1 l2 : List (Nat × α)) (k : Nat) :
    lookupBy (l1 ++ l2) k = (lookupBy l1 k).or (lookupBy l2 k) := by
  rcases h : l1.find? (fun p => p.1 == k) with _ | p
  · simp [lookupBy, List.find?_append, h]
  · simp [lookupBy, List.find?_append, h]

theorem lookupBy_filter_ne {α : Type} (l : List (Nat × α)) (k : Nat) :
    lookupBy (l.filter (fun p => p.1 != k)) k = none := by
  have hall : ∀ x ∈ l.filter (fun p => p.1 != k),
      ¬((fun p : Nat × α => p.1 == k) x = true) := by
    intro x hx
    have hq := (List.mem_filter.mp hx).2
    simp only [bne_iff_ne, ne_eq] at hq
    simp [hq]
  simp [lookupBy, List.find?_eq_none.2 hall]

theorem runLoop_frames (script : List LoopEvent) (st : LoopState) :
    ∀ f ∈ (runLoop script st).1, f = Frame.comment "ping" ∨ f.isDelta = true := by
  induction script generalizing st with
  | nil => intro f hf; simp [runLoop] at hf
  | cons ev rest ih =>
    cases ev with
    | timeout =>
      intro f hf
      simp only [runLoop, List.mem_cons] at hf
      rcases hf with h | h
      · exact Or.inl h
      · exact ih st f h
    | chunk c =>
      intro f hf
      simp only [runLoop, List.mem_append] at hf
      rcases hf with h | h
      · rcases hc : c.content == "" with _ | _
        · rw [chunkFrames, hc] at h
          simp at h
          subst h
          exact Or.inr rfl
        · rw [chunkFrames, hc] at h
          simp at h
      · exact ih _ f h
    | cancel => intro f hf; simp [runLoop] at hf
    | appError e => intro f hf; simp [runLoop] at hf
    | exn => intro f hf; simp [runLoop] at hf

theorem concatDeltaTexts_append (l1 l2 : List Frame) :
    concatDeltaTexts (l1 ++ l2) = concatDeltaTexts l1 ++ concatDeltaTexts l2 := by
  induction l1 with
  | nil => simp [concatDeltaTexts]
  | cons f rest ih =>
    simp only [List.cons_append, concatDeltaTexts, List.append_eq]
    rw [ih]
    exact (String.append_assoc _ _ _).symm

theorem stepChunk_content (st : LoopState) (c : ChatChunk) :
    (stepChunk st c).assistant_content =
      st.assistant_content ++ concatDeltaTexts (chunkFrames c) := by
  by_cases h : c.content = ""
  · simp [stepChunk, chunkFrames, concatDeltaTexts, h]
  · simp [stepChunk, chunkFrames, concatDeltaTexts, deltaText, h, Json.get?]

theorem runLoop_content (script : List LoopEvent) (st : LoopState) :
    (runLoop script st).2.2.assistant_content =
      st.assistant_content ++ concatDeltaTexts (runLoop script st).1 := by
  induction script generalizing st with
  | nil => simp [runLoop, concatDeltaTexts]
  | cons ev rest ih =>
    cases ev with
    | timeout =>
      simp only [runLoop]
      rw [ih st]
      simp [concatDeltaTexts, deltaText]
    | chunk c =>
      simp only [runLoop]
      rw [ih (stepChunk st c)]
      rw [stepChunk_content, concatDeltaTexts_append]
      exact (String.append_assoc _ _ _)
    | cancel => simp [runLoop, concatDeltaTexts]
    | appError e => simp [runLoop, concatDeltaTexts]
    | exn => simp [runLoop, concatDeltaTexts]

theorem increment_messages (db : Db) (u m t : Nat) :
    (increment_usage_counter db u m t).messages = db.messages := by
  unfold increment_usage_counter
  rcases lookupBy db.counters u with _ | c <;> rfl

theorem increment_conversations (db : Db) (u m t : Nat) :
    (increment_usage_counter db u m t).conversations = db.conversations := by
  unfold increment_usage_counter
  rcases lookupBy db.counters u with _ | c <;> rfl

theorem increment_counters_congr (db db' : Db) (h : db.counters = db'.counters)
    (u m t : Nat) :
    (increment_usage_counter db u m t).counters =
      (increment_usage_counter db' u m t).counters := by
  unfold increment_usage_counter
  rw [h]
  rcases lookupBy db'.counters u with _ | c <;> rfl

theorem get_usage_counter_congr (db db' : Db) (h : db.counters = db'.counters)
    (u : Nat) : get_usage_counter db u = get_usage_counter db' u := by
  simp [get_usage_counter, h]

theorem get_usage_counter_increment (db : Db) (u m t : Nat) :
    get_usage_counter (increment_usage_counter db u m t) u =
      some { messages_used :=
               ((get_usage_counter db u).getD {}).messages_used + m
             tokens_used :=
               ((get_usage_counter db u).getD {}).tokens_used + t } := by
  unfold increment_usage_counter get_usage_counter
  rcases h : lookupBy db.counters u with _ | c
  · simp only [h]
    rw [lookupBy_append, h]
    simp [lookupBy, List.find?]
  · simp only [h]
    rw [lookupBy_map_upd db.counters u
      (fun c => { messages_used := c.messages_used + m, tokens_used := c.tokens_used + t }), h]
    rfl

theorem finalize_messages (db : Db) (cid mid : Nat) (base : BaseMeta)
    (sid : Nat) (rid : Option String) (content pid model : String) (uid : Nat)
    (inc canc : Bool) (fr : Option String) (err : Option AppError) :
    (finalize_assistant_message db cid mid base sid rid content pid model uid
        inc canc fr err).1.messages =
      db.messages.map (fun m =>
        if m.id == mid then
          { m with content := content, provider := some pid, model := some model,
                   provider_meta := some (.json (build_provider_meta
                     { base with model := model } sid rid canc fr err)) }
        else m) := by
  unfold finalize_assistant_message
  rcases h : inc && !canc && err.isNone with _ | _
  · simp [h]
  · simp [h, increment_messages]

theorem finalize_counters (db : Db) (cid mid : Nat) (base : BaseMeta)
    (sid : Nat) (rid : Option String) (content pid model : String) (uid : Nat)
    (inc canc : Bool) (fr : Option String) (err : Option AppError) :
    (finalize_assistant_message db cid mid base sid rid content pid model uid
        inc canc fr err).1.counters =
      if inc && !canc && err.isNone then
        (increment_usage_counter db uid 1
          (((db.messages.find? (fun m => m.id == mid)).bind
              (·.total_tokens)).getD 0)).counters
      else db.counters := by
  unfold finalize_assistant_message
  rcases h : inc && !canc && err.isNone with _ | _
  · simp [h]
  · simp only [h, if_pos]
    apply increment_counters_congr
    rfl

theorem finalize_row (db : Db) (cid mid : Nat) (base : BaseMeta)
    (sid : Nat) (rid : Option String) (content pid model : String) (uid : Nat)
    (inc canc : Bool) (fr : Option String) (err : Option AppError)
    (r : MessageRow) (hr : db.messages.find? (fun m => m.id == mid) = some r) :
    (finalize_assistant_message db cid mid base sid rid content pid model uid
        inc canc fr err).1.messages.find? (fun m => m.id == mid) =
      some { r with content := content, provider := some pid, model := some model,
                    provider_meta := some (.json (build_provider_meta
                      { base with model := model } sid rid canc fr err)) } := by
  rw [finalize_messages, List.find?_map]
  have hcomp : ((fun m : MessageRow => m.id == mid) ∘ (fun m =>
      if m.id == mid then
        { m with content := content, provider := some pid, model := some model,
                 provider_meta := some (.json (build_provider_meta
                   { base with model := model } sid rid canc fr err)) }
      else m)) = fun m : MessageRow => m.id == mid := by
    funext m
    by_cases h : m.id = mid <;> simp [h]
  rw [hcomp, hr]
  have hpr := List.find?_some hr
  simp only [Option.map_some']
  simp only [hpr, if_true]

theorem finalPayload_meta (mid : Nat) (meta : Json) (usage : List (String × Nat)) :
    (finalPayload mid meta usage).get? "provider_meta" = some meta := rfl

theorem build_provider_meta_stream_id (base : BaseMeta) (sid : Nat)
    (rid : Option String) (canc : Bool) (fr : Option String)
    (err : Option AppError) :
    (build_provider_meta base sid rid canc fr err).get? "stream_id" =
      some (.num sid) := rfl

theorem event_generator_frames (db : Db) (conv : ConversationRow) (asstId : Nat)
    (base : BaseMeta) (sid : Nat) (rid : Option String) (pid model : String)
    (uid : Nat) (script : List LoopEvent) :
    ∃ p t,
      (event_generator db conv asstId base sid rid pid model uid script).2 =
        Frame.event "meta" p :: (runLoop script ⟨"", none, model⟩).1 ++ [t] ∧
      p.get? "stream_id" = some (.num sid) ∧
      ((∃ q, t = Frame.event "final" q ∧
          (q.get? "provider_meta").bind (fun mm => mm.get? "stream_id") =
            some (.num sid)) ∨
       (∃ q, t = Frame.event "error" q)) := by
  rcases hOut : (runLoop script ⟨"", none, model⟩).2.1 with _ | _ | e
  · simp only [event_generator, hOut]
    exact ⟨_, _, rfl, rfl, Or.inl ⟨_, rfl, rfl⟩⟩
  · simp only [event_generator, hOut]
    exact ⟨_, _, rfl, rfl, Or.inl ⟨_, rfl, rfl⟩⟩
  · simp only [event_generator, hOut]
    exact ⟨_, _, rfl, rfl, Or.inr ⟨_, rfl⟩⟩

theorem event_generator_wf (db : Db) (conv : ConversationRow) (asstId : Nat)
    (base : BaseMeta) (sid : Nat) (rid : Option String) (pid model : String)
    (uid : Nat) (script : List LoopEvent) :
    framesWellFormed
      (event_generator db conv asstId base sid rid pid model uid script).2 sid := by
  obtain ⟨p, t, hfr, hp, ht⟩ :=
    event_generator_frames db conv asstId base sid rid pid model uid script
  refine ⟨p, (runLoop script ⟨"", none, model⟩).1.filter Frame.isNamedEvent, t,
    ?_, hp, ?_, ht⟩
  · rw [hfr]
    rcases ht with ⟨q, htq, hq2⟩ | ⟨q, htq⟩ <;>
      (subst htq; simp [List.filter_append, Frame.isNamedEvent])
  · intro f hf
    rw [List.mem_filter] at hf
    rcases runLoop_frames script ⟨"", none, model⟩ f hf.1 with hping | hd
    · rw [hping] at hf
      simp [Frame.isNamedEvent] at hf
    · exact hd

theorem event_generator_row (db : Db) (conv : ConversationRow) (asstId : Nat)
    (base : BaseMeta) (sid : Nat) (rid : Option String) (pid model : String)
    (uid : Nat) (script : List LoopEvent) (r : MessageRow)
    (hr : db.messages.find? (fun m => m.id == asstId) = some r) :
    ∃ row,
      (event_generator db conv asstId base sid rid pid model uid
          script).1.messages.find? (fun m => m.id == asstId) = some row ∧
      row.content = (runLoop script ⟨"", none, model⟩).2.2.assistant_content ∧
      row.completion_tokens = r.completion_tokens ∧
      row.total_tokens = r.total_tokens := by
  rcases hOut : (runLoop script ⟨"", none, model⟩).2.1 with _ | _ | e
  · simp only [event_generator, hOut]
    exact ⟨_, finalize_row _ _ _ _ _ _ _ _ _ _ _ _ _ _ r hr, rfl, rfl, rfl⟩
  · simp only [event_generator, hOut]
    exact ⟨_, finalize_row _ _ _ _ _ _ _ _ _ _ _ _ _ _ r hr, rfl, rfl, rfl⟩
  · simp only [event_generator, hOut]
    exact ⟨_, finalize_row _ _ _ _ _ _ _ _ _ _ _ _ _ _ r hr, rfl, rfl, rfl⟩

theorem event_generator_counters (db : Db) (conv : ConversationRow)
    (asstId : Nat) (base : BaseMeta) (sid : Nat) (rid : Option String)
    (pid model : String) (uid : Nat) (script : List LoopEvent) (r : MessageRow)
    (hr : db.messages.find? (fun m => m.id == asstId) = some r) :
    get_usage_counter
        (event_generator db conv asstId base sid rid pid model uid script).1 uid =
      match (runLoop script ⟨"", none, model⟩).2.1 with
      | .success =>
          some { messages_used :=
                   ((get_usage_counter db uid).getD {}).messages_used + 1
                 tokens_used :=
                   ((get_usage_counter db uid).getD {}).tokens_used
                     + r.total_tokens.getD 0 }
      | _ => get_usage_counter db uid := by
  rcases hOut : (runLoop script ⟨"", none, model⟩).2.1 with _ | _ | e
  · simp only [event_generator, hOut]
    have hc := finalize_counters db conv.id asstId base sid rid
      (runLoop script ⟨"", none, model⟩).2.2.assistant_content pid
      (runLoop script ⟨"", none, model⟩).2.2.resolved_model uid true false
      (runLoop script ⟨"", none, model⟩).2.2.finish_reason none
    simp only [hr, Option.some_bind] at hc
    rw [get_usage_counter_congr _
      (increment_usage_counter db uid 1 (r.total_tokens.getD 0)) (by rw [hc]; rfl)]
    rw [get_usage_counter_increment]
  · simp only [event_generator, hOut]
    have hc := finalize_counters db conv.id asstId base sid rid
      (runLoop script ⟨"", none, model⟩).2.2.assistant_content pid
      (runLoop script ⟨"", none, model⟩).2.2.resolved_model uid false true
      (runLoop script ⟨"", none, model⟩).2.2.finish_reason none
    exact get_usage_counter_congr _ db (by rw [hc]; rfl) uid
  · simp only [event_generator, hOut]
    have hc := finalize_counters db conv.id asstId base sid rid
      (runLoop script ⟨"", none, model⟩).2.2.assistant_content pid
      (runLoop script ⟨"", none, model⟩).2.2.resolved_model uid false false
      (runLoop script ⟨"", none, model⟩).2.2.finish_reason (some e)
    exact get_usage_counter_congr _ db (by rw [hc]; rfl) uid

theorem stream_chat_ok (db : Db) (registry : List String) (u cid : Nat)
    (pid model input : String) (settings : List (String × Json))
    (rid : Option String) (script : List LoopEvent) (out : StreamOut)
    (h : (stream_chat db registry u cid pid model input settings rid
            script).2 = .ok out) :
    ∃ conv, get_user_conversation db u cid = some conv ∧
      enforce_quota db u = .ok () ∧ registry.contains pid = true ∧
      out.db = (event_generator (persistTurn db cid input pid model settings)
        conv (db.nextId + 1) ⟨pid, model, settings⟩ (db.nextId + 2) rid
        pid model u script).1 ∧
      out.frames = (event_generator (persistTurn db cid input pid model settings)
        conv (db.nextId + 1) ⟨pid, model, settings⟩ (db.nextId + 2) rid
        pid model u script).2 ∧
      out.stream_id = db.nextId + 2 ∧
      out.user_msg_id = db.nextId ∧
      out.asst_msg_id = db.nextId + 1 := by
  unfold stream_chat at h
  rcases hconv : get_user_conversation db u cid with _ | conv
  · rw [hconv] at h
    exact absurd h (by simp)
  rw [hconv] at h
  rcases hq : enforce_quota db u with e | v
  · rw [hq] at h
    exact absurd h (by simp)
  rw [hq] at h
  rcases hreg : registry.contains pid with _ | _
  · simp only [hreg, Bool.false_eq_true, if_false] at h
    exact absurd h (by simp)
  · simp only [hreg, if_true] at h
    have he := Except.ok.inj h
    refine ⟨conv, rfl, rfl, rfl, ?_, ?_, ?_, ?_, ?_⟩
    · exact (congrArg StreamOut.db he.symm).trans rfl
    · exact (congrArg StreamOut.frames he.symm).trans rfl
    · exact (congrArg StreamOut.stream_id he.symm).trans rfl
    · exact (congrArg StreamOut.user_msg_id he.symm).trans rfl
    · exact (congrArg StreamOut.asst_msg_id he.symm).trans rfl

theorem placeholder_found (db : Db) (hwf : DbWf db) (cid : Nat)
    (input pid model : String) (settings : List (String × Json)) :
    (persistTurn db cid input pid model settings).messages.find?
        (fun m => m.id == db.nextId + 1) =
      some { id := db.nextId + 1, conversation_id := cid, role := "assistant"
             content := "", provider := some pid, model := some model
             provider_meta := some (.json (baseMetaJson ⟨pid, model, settings⟩))
             created_at := db.messages.length + 1 } := by
  have h1 : db.messages.find? (fun m => m.id == db.nextId + 1) = none := by
    apply List.find?_eq_none.2
    intro m hm
    have := hwf m hm
    simp only [beq_iff_eq]
    omega
  unfold persistTurn
  simp only [create_message]
  rw [List.find?_append, List.find?_append, h1]
  have h2 : (db.nextId == db.nextId + 1) = false := by
    simp only [beq_eq_false_iff_ne, ne_eq]
    omega
  simp [List.find?, h2, List.length_append]

theorem requestAttempts_resp (script : Nat → NetAttempt) (a r s : Nat)
    (b : String) (h : script a = .resp s b) :
    requestAttempts script a r = ([], .ok (s, b)) := by
  unfold requestAttempts
  rw [h]

theorem requestAttempts_netErr_zero (script : Nat → NetAttempt) (a : Nat)
    (h : script a = .netErr) :
    requestAttempts script a 0 =
      ([], .error ⟨.PROVIDER_UNAVAILABLE, "Provider unavailable"⟩) := by
  unfold requestAttempts
  rw [h]

theorem requestAttempts_netErr_succ (script : Nat → NetAttempt) (a r : Nat)
    (h : script a = .netErr) :
    requestAttempts script a (r + 1) =
      (retryBackoff a :: (requestAttempts script (a + 1) r).1,
       (requestAttempts script (a + 1) r).2) := by
  conv_lhs => unfold requestAttempts
  rw [h]

theorem requestAttempts_first_resp (script : Nat → NetAttempt) (k : Nat) :
    ∀ a r, k ≤ r → (∀ j, j < k → script (a + j) = .netErr) →
      ∀ s b, script (a + k) = .resp s b →
      requestAttempts script a r =
        ((List.range k).map (fun i => retryBackoff (a + i)), .ok (s, b)) := by
  induction k with
  | zero =>
    intro a r hle hpre s b hresp
    simp only [Nat.add_zero] at hresp
    simp [requestAttempts_resp script a r s b hresp]
  | succ k ih =>
    intro a r hle hpre s b hresp
    have h0 : script a = .netErr := by simpa using hpre 0 (Nat.succ_pos k)
    rcases r with _ | r'
    · omega
    rw [requestAttempts_netErr_succ script a r' h0]
    have hpre' : ∀ j, j < k → script (a + 1 + j) = .netErr := by
      intro j hj
      have h' := hpre (j + 1) (by omega)
      rwa [show a + (j + 1) = a + 1 + j by omega] at h'
    have hresp' : script (a + 1 + k) = .resp s b := by
      rwa [show a + 1 + k = a + (k + 1) by omega]
    rw [ih (a + 1) r' (by omega) hpre' s b hresp']
    refine Prod.ext ?_ rfl
    simp only [List.range_succ_eq_map, List.map_cons, List.map_map, Nat.add_zero]
    congr 1
    apply List.map_congr_left
    intro i _
    simp only [Function.comp]
    congr 1
    omega

theorem requestAttempts_exhaust (script : Nat → NetAttempt) :
    ∀ r a, (∀ j, j ≤ r → script (a + j) = .netErr) →
      requestAttempts script a r =
        ((List.range r).map (fun i => retryBackoff (a + i)),
         .error ⟨.PROVIDER_UNAVAILABLE, "Provider unavailable"⟩) := by
  intro r
  induction r with
  | zero =>
    intro a h
    have h0 : script a = .netErr := by simpa using h 0 (le_refl 0)
    simp [requestAttempts_netErr_zero script a h0]
  | succ r ih =>
    intro a h
    have h0 : script a = .netErr := by simpa using h 0 (by omega)
    rw [requestAttempts_netErr_succ script a r h0]
    rw [ih (a + 1) (fun j hj => by
      rw [show a + 1 + j = a + (j + 1) by omega]
      exact h (j + 1) (by omega))]
    refine Prod.ext ?_ rfl
    simp only [List.range_succ_eq_map, List.map_cons, List.map_map, Nat.add_zero]
    congr 1
    apply List.map_congr_left
    intro i _
    simp only [Function.comp]
    congr 1
    omega

/-! The claims. -/

/-- C1: the specification requires every named SSE frame to serialize as
`event: <name>` newline `data: <json>` newline newline, with compact
JSON.  The code's `_format_sse_event` f-string doubles its backslashes
(`\\n` in the source), so the emitted frame carries the literal
two-character sequences backslash-`n` instead of newlines: the produced
bytes differ from the mandated wire format and contain no newline at
all, while the sibling comment formatter emits real newlines.  This
contradicts the stated SSE grammar and breaks every conforming SSE
parser, so it is a defect of the code, not of the claim. -/
theorem C1_sse_event_frame_literal_backslash :
    format_sse_event "meta" (Json.obj []) = "event: meta\\ndata: \x7b\x7d\\n\\n" ∧
    format_sse_event "meta" (Json.obj []) ≠
      sse_event_wire_spec "meta" (Json.obj []) ∧
    ('\n' ∈ (format_sse_event "meta" (Json.obj [])).toList) = False := by
  refine ⟨rfl, ?_, ?_⟩ <;> decide

/-- C2: for every stream `stream_chat` starts, the named frames are
exactly one `meta` frame first, then zero or more `delta` frames, then
exactly one terminal `final`/`error` frame, and any terminal `final`
frame's `provider_meta.stream_id` equals the `meta` frame's `stream_id`
(in particular this holds for every successful stream). -/
theorem C2_frame_order (db : Db) (registry : List String) (u cid : Nat)
    (pid model input : String) (settings : List (String × Json))
    (rid : Option String) (script : List LoopEvent) (out : StreamOut)
    (h : (stream_chat db registry u cid pid model input settings rid
            script).2 = .ok out) :
    framesWellFormed out.frames out.stream_id := by
  obtain ⟨conv, hconv, hq, hreg, hdb, hframes, hsid, huid, haid⟩ :=
    stream_chat_ok db registry u cid pid model input settings rid script out h
  rw [hframes, hsid]
  exact event_generator_wf _ conv _ _ _ rid pid model u script

/-- Witness for C2: a concrete two-chunk successful stream. -/
theorem C2_frame_order_witness :
    (stream_chat sampleDb ["ollama"] 7 3 "ollama" "m1" "Hi" [] (some "req-1")
        sampleScript).2 = .ok sampleOut ∧
    framesWellFormed sampleOut.frames sampleOut.stream_id := by
  have h : (stream_chat sampleDb ["ollama"] 7 3 "ollama" "m1" "Hi" []
      (some "req-1") sampleScript).2 = .ok sampleOut := rfl
  exact ⟨h, C2_frame_order _ _ _ _ _ _ _ _ _ _ _ h⟩

/-- C3: when the user's daily usage has met or exceeded either quota
limit, `stream_chat` on an owned conversation fails with `QuotaExceeded`
and the persistent state is returned unchanged — no user row, no
assistant placeholder, no counter update. -/
theorem C3_quota_rejection (db : Db) (registry : List String) (u cid : Nat)
    (pid model input : String) (settings : List (String × Json))
    (rid : Option String) (script : List LoopEvent) (conv : ConversationRow)
    (q : UserQuota)
    (hconv : get_user_conversation db u cid = some conv)
    (hq : get_user_quota db u = some q)
    (hlim : (∃ L, q.messages_per_day = some L ∧
               L ≤ ((get_usage_counter db u).getD {}).messages_used) ∨
            (∃ T, q.tokens_per_day = some T ∧
               T ≤ ((get_usage_counter db u).getD {}).tokens_used)) :
    ∃ e, stream_chat db registry u cid pid model input settings rid script =
        (db, .error e) ∧ e.code = .QUOTA_EXCEEDED := by
  have hmu : ((get_usage_counter db u).map (·.messages_used)).getD 0 =
      ((get_usage_counter db u).getD {}).messages_used := by
    cases get_usage_counter db u <;> rfl
  have htu : ((get_usage_counter db u).map (·.tokens_used)).getD 0 =
      ((get_usage_counter db u).getD {}).tokens_used := by
    cases get_usage_counter db u <;> rfl
  have henf : ∃ e, enforce_quota db u = .error e ∧ e.code = .QUOTA_EXCEEDED := by
    unfold enforce_quota
    simp only [hq]
    rcases hlim with ⟨L, hL, hle⟩ | ⟨T, hT, hle⟩
    · simp only [hL]
      rw [if_pos (by rw [hmu]; exact hle)]
      exact ⟨_, rfl, rfl⟩
    · rcases hmq : q.messages_per_day with _ | L'
      · simp only [hmq, hT]
        rw [if_pos (by rw [htu]; exact hle)]
        exact ⟨_, rfl, rfl⟩
      · simp only [hmq]
        by_cases hmle : L' ≤ ((get_usage_counter db u).map (·.messages_used)).getD 0
        · rw [if_pos hmle]
          exact ⟨_, rfl, rfl⟩
        · rw [if_neg hmle]
          simp only [hT]
          rw [if_pos (by rw [htu]; exact hle)]
          exact ⟨_, rfl, rfl⟩
  obtain ⟨e, he, hcode⟩ := henf
  refine ⟨e, ?_, hcode⟩
  unfold stream_chat
  simp only [hconv, he]

/-- Witness for C3: one message per day, one already used. -/
theorem C3_quota_rejection_witness :
    ∃ e, stream_chat quotaDb ["ollama"] 7 3 "ollama" "m1" "Hi" [] none [] =
        (quotaDb, .error e) ∧ e.code = .QUOTA_EXCEEDED :=
  C3_quota_rejection quotaDb ["ollama"] 7 3 "ollama" "m1" "Hi" [] none []
    sampleConv { messages_per_day := some 1 } rfl rfl
    (Or.inl ⟨1, rfl, by decide⟩)

theorem cancel_snd (m : StreamManager) (sid uid : Nat) :
    (m.cancel sid uid).2 =
      (match m.find sid with
       | none => false
       | some s => s.user_id == uid) := by
  unfold StreamManager.cancel
  rcases h : m.find sid with _ | s
  · simp
  · by_cases hu : s.user_id = uid <;> simp [hu]

theorem cancel_find (m : StreamManager) (sid uid : Nat) :
    (m.cancel sid uid).1.find sid =
      (m.find sid).map (fun s =>
        if s.user_id == uid then
          { s with canceled := true
                   taskCancelRequested := s.taskCancelRequested || s.taskRunning }
        else s) := by
  unfold StreamManager.cancel
  rcases h : m.find sid with _ | s
  · simp
    exact h
  · by_cases hu : s.user_id = uid
    · simp only [hu, ne_eq, not_true_eq_false, if_false, Option.map_some',
        beq_self_eq_true, if_true]
      show lookupBy _ sid = _
      rw [lookupBy_map_upd m.streams sid (fun t : ActiveStream =>
        { t with canceled := true
                 taskCancelRequested := t.taskCancelRequested || t.taskRunning })]
      rw [show lookupBy m.streams sid = m.find sid from rfl, h]
      simp [hu]
    · simp [hu]
      exact h

/-- C4 counterexample: the claim asserts that a second `cancel` call for
the same id immediately after a first successful one returns false
because the second call observes no tracked stream.  In the code,
`cancel` sets the cancellation flag but never removes the table entry
(only `unregister`, run by the stream's own cleanup, does), so an
immediate second call still observes the tracked stream, passes the
ownership check again, and returns true. -/
theorem C4_double_cancel_counterexample :
    (sampleManager.cancel 1 7).2 = true ∧
    ((sampleManager.cancel 1 7).1.cancel 1 7).2 = true := by
  constructor <;> rfl

/-- C4 amended: `cancel(stream_id, user_id)` returns true iff a stream
with that id is tracked and owned by the requester; `cancel` leaves the
entry tracked, so an immediate second call returns exactly the same
result as the first; it returns false only once the stream has been
unregistered, as the generator's guaranteed cleanup does on
termination. -/
theorem C4_cancel_ownership_and_idempotence (m : StreamManager)
    (sid uid : Nat) :
    ((m.cancel sid uid).2 = true ↔
      ∃ s, m.find sid = some s ∧ s.user_id = uid) ∧
    ((m.cancel sid uid).1.cancel sid uid).2 = (m.cancel sid uid).2 ∧
    ((m.unregister sid).1.cancel sid uid).2 = false := by
  refine ⟨?_, ?_, ?_⟩
  · rw [cancel_snd]
    rcases h : m.find sid with _ | s
    · simp
    · simp [beq_iff_eq]
  · rw [cancel_snd, cancel_snd, cancel_find]
    rcases h : m.find sid with _ | s
    · simp
    · by_cases hu : s.user_id = uid <;> simp [hu]
  · rw [cancel_snd]
    have hnone : (m.unregister sid).1.find sid = none := by
      unfold StreamManager.unregister StreamManager.find
      exact lookupBy_filter_ne m.streams sid
    rw [hnone]

/-- C5: the per-user usage counter changes exactly when the stream
finalizes as Success (iterator exhausted without cancellation or error):
it gains one message plus the turn's completion tokens — the finalized
assistant row's `completion_tokens`, which no streaming path ever
populates, so the addend is 0; the code adds the same row's
`total_tokens or 0`, equal to it on every stream.  On the canceled and
error finalize paths the counter is unchanged. -/
theorem C5_usage_increment (db : Db) (registry : List String) (u cid : Nat)
    (pid model input : String) (settings : List (String × Json))
    (rid : Option String) (script : List LoopEvent) (out : StreamOut)
    (hwf : DbWf db)
    (h : (stream_chat db registry u cid pid model input settings rid
            script).2 = .ok out) :
    get_usage_counter out.db u =
      match (runLoop script ⟨"", none, model⟩).2.1 with
      | .success =>
          some { messages_used :=
                   ((get_usage_counter db u).getD {}).messages_used + 1
                 tokens_used :=
                   ((get_usage_counter db u).getD {}).tokens_used +
                     (((out.db.messages.find? (fun m => m.id == out.asst_msg_id)).bind
                         (fun m => m.completion_tokens)).getD 0) }
      | .canceled => get_usage_counter db u
      | .errored _ => get_usage_counter db u := by
  obtain ⟨conv, hconv, hq, hreg, hdb, hframes, hsid, huid, haid⟩ :=
    stream_chat_ok db registry u cid pid model input settings rid script out h
  have hrow := placeholder_found db hwf cid input pid model settings
  obtain ⟨row, hfind, hcontent, hcomp, htot⟩ :=
    event_generator_row (persistTurn db cid input pid model settings) conv
      (db.nextId + 1) ⟨pid, model, settings⟩ (db.nextId + 2) rid pid model
      u script _ hrow
  have hcnt := event_generator_counters (persistTurn db cid input pid model settings)
    conv (db.nextId + 1) ⟨pid, model, settings⟩ (db.nextId + 2) rid pid model
    u script _ hrow
  rw [get_usage_counter_congr (persistTurn db cid input pid model settings)
    db rfl u] at hcnt
  rw [hdb, haid, hcnt]
  rcases hOut : (runLoop script ⟨"", none, model⟩).2.1 with _ | _ | e
  · rw [hfind]
    simp [hcomp]
  · rfl
  · rfl

/-- Witness for C5: a concrete successful two-chunk stream increments
the counter by one message and zero tokens. -/
theorem C5_usage_increment_witness :
    DbWf sampleDb ∧
    (stream_chat sampleDb ["ollama"] 7 3 "ollama" "m1" "Hi" [] (some "req-1")
        sampleScript).2 = .ok sampleOut ∧
    get_usage_counter sampleOut.db 7 =
      match (runLoop sampleScript ⟨"", none, "m1"⟩).2.1 with
      | .success =>
          some { messages_used :=
                   ((get_usage_counter sampleDb 7).getD {}).messages_used + 1
                 tokens_used :=
                   ((get_usage_counter sampleDb 7).getD {}).tokens_used +
                     (((sampleOut.db.messages.find?
                           (fun m => m.id == sampleOut.asst_msg_id)).bind
                         (fun m => m.completion_tokens)).getD 0) }
      | .canceled => get_usage_counter sampleDb 7
      | .errored _ => get_usage_counter sampleDb 7 := by
  have hwf : DbWf sampleDb := by intro m hm; simp [sampleDb] at hm
  refine ⟨hwf, rfl, ?_⟩
  exact C5_usage_increment sampleDb ["ollama"] 7 3 "ollama" "m1" "Hi" []
    (some "req-1") sampleScript sampleOut hwf rfl

/-- C10: for every outcome of a started stream, the assistant content
persisted by finalize equals the in-order concatenation of the text
fields of the `delta` frames emitted on that stream; an empty-content
chunk yields no `delta` frame and contributes nothing. -/
theorem C10_content_matches_deltas (db : Db) (registry : List String)
    (u cid : Nat) (pid model input : String) (settings : List (String × Json))
    (rid : Option String) (script : List LoopEvent) (out : StreamOut)
    (hwf : DbWf db)
    (h : (stream_chat db registry u cid pid model input settings rid
            script).2 = .ok out) :
    ∃ row, out.db.messages.find? (fun m => m.id == out.asst_msg_id) = some row ∧
      row.content = concatDeltaTexts out.frames := by
  obtain ⟨conv, hconv, hq, hreg, hdb, hframes, hsid, huid, haid⟩ :=
    stream_chat_ok db registry u cid pid model input settings rid script out h
  have hrow := placeholder_found db hwf cid input pid model settings
  obtain ⟨row, hfind, hcontent, hcomp, htot⟩ :=
    event_generator_row (persistTurn db cid input pid model settings) conv
      (db.nextId + 1) ⟨pid, model, settings⟩ (db.nextId + 2) rid pid model
      u script _ hrow
  rw [hdb, haid, hframes]
  refine ⟨row, hfind, ?_⟩
  rw [hcontent]
  obtain ⟨p, t, hfr, hp, ht⟩ :=
    event_generator_frames (persistTurn db cid input pid model settings) conv
      (db.nextId + 1) ⟨pid, model, settings⟩ (db.nextId + 2) rid pid model
      u script
  rw [hfr, runLoop_content script ⟨"", none, model⟩]
  rcases ht with ⟨q, htq, hq2⟩ | ⟨q, htq⟩ <;>
    (subst htq; simp [concatDeltaTexts, concatDeltaTexts_append, deltaText])

/-- Witness for C10: the concrete stream persists `Hello world`. -/
theorem C10_content_matches_deltas_witness :
    DbWf sampleDb ∧
    (stream_chat sampleDb ["ollama"] 7 3 "ollama" "m1" "Hi" [] (some "req-1")
        sampleScript).2 = .ok sampleOut ∧
    (∃ row, sampleOut.db.messages.find?
          (fun m => m.id == sampleOut.asst_msg_id) = some row ∧
        row.content = concatDeltaTexts sampleOut.frames) := by
  have hwf : DbWf sampleDb := by intro m hm; simp [sampleDb] at hm
  refine ⟨hwf, rfl, ?_⟩
  exact C10_content_matches_deltas sampleDb ["ollama"] 7 3 "ollama" "m1" "Hi" []
    (some "req-1") sampleScript sampleOut hwf rfl

/-- C6 counterexample: the claim says every adapter raises
`ProviderBadResponse` on a structurally invalid mid-stream line —
undecodable JSON or missing expected keys — and never silently skips
malformed data.  The OpenAI-compatible adapter in the tree skips a line
whose payload fails to decode (`except json.JSONDecodeError: continue`)
and keeps streaming, and the Ollama adapter skips a decoded object
missing the expected keys (no content, no finish signal) instead of
raising. -/
theorem C6_malformed_line_counterexample :
    openai_compat_process_lines
        [OaiLine.bad "not json", OaiLine.obj (some "hi") none] =
      [StreamEvent.delta "hi"] ∧
    ollama_process_lines "m" [OllamaLine.obj none false none none none] =
      .ok [] := by
  constructor <;> rfl

/-- C6 amended: the Ollama adapter raises `ProviderBadResponse` on an
undecodable mid-stream JSON line, terminating the sequence; but a
decodable chunk carrying neither content nor a finish signal is silently
skipped, and the OpenAI-compatible adapter silently skips undecodable
data lines instead of raising. -/
theorem C6_malformed_line_handling :
    (∀ reqModel raw rest,
      ollama_process_lines reqModel (OllamaLine.bad raw :: rest) =
        .error ⟨.PROVIDER_BAD_RESPONSE, "Provider returned invalid response"⟩) ∧
    (∀ reqModel mc dn dr fr mdl rest,
      ((mc.getD "" == "") && strFalsy (if dn then dr else fr)) = true →
      ollama_process_lines reqModel (OllamaLine.obj mc dn dr fr mdl :: rest) =
        ollama_process_lines reqModel rest) ∧
    (∀ raw rest, openai_compat_process_lines (OaiLine.bad raw :: rest) =
      openai_compat_process_lines rest) := by
  refine ⟨fun _ _ _ => rfl, ?_, fun _ _ => rfl⟩
  intro reqModel mc dn dr fr mdl rest hskip
  conv_lhs => unfold ollama_process_lines
  simp only [hskip, if_true]

/-- Witness for C6's amended statement at concrete malformed lines. -/
theorem C6_malformed_line_handling_witness :
    ollama_process_lines "m" [OllamaLine.obj none false none none none] =
      ollama_process_lines "m" [] ∧
    ollama_process_lines "m"
        [OllamaLine.bad "oops", OllamaLine.obj (some "x") false none none none] =
      .error ⟨.PROVIDER_BAD_RESPONSE, "Provider returned invalid response"⟩ := by
  constructor
  · exact C6_malformed_line_handling.2.1 "m" none false none none none []
      (by decide)
  · exact C6_malformed_line_handling.1 "m" "oops" _

/-- C7: the resilient transport returns the first response it obtains —
whatever its status code, so an upstream 429 is never retried — retrying
only raised network-level failures, with backoff
`min(0.1*(attempt+1), 1.0)` seconds before each retry, at most
`max_retries` retries, and `ProviderUnavailable` after exhaustion;
`raise_for_status`, applied once per obtained response, maps
401/403 to `ProviderAuthError`, 404 to `ModelNotFound`, 429 to
`RateLimited`, ≥500 to `ProviderUnavailable`, any other ≥400 to the
generic `ProviderError`, and passes <400 through. -/
theorem C7_transport_retry_and_mapping :
    (∀ max_retries script k s b, k ≤ max_retries →
      (∀ j, j < k → script j = NetAttempt.netErr) →
      script k = NetAttempt.resp s b →
      request_with_retries max_retries script =
        ((List.range k).map retryBackoff, .ok (s, b))) ∧
    (∀ max_retries script,
      (∀ j, j ≤ max_retries → script j = NetAttempt.netErr) →
      request_with_retries max_retries script =
        ((List.range max_retries).map retryBackoff,
         .error ⟨.PROVIDER_UNAVAILABLE, "Provider unavailable"⟩)) ∧
    (∀ k, retryBackoff k = min ((1 : ℚ)/10 * (k + 1)) 1) ∧
    (∀ s, s < 400 → raise_for_status s = .ok ()) ∧
    (∃ e, raise_for_status 401 = .error e ∧ e.code = .PROVIDER_AUTH_FAILED) ∧
    (∃ e, raise_for_status 403 = .error e ∧ e.code = .PROVIDER_AUTH_FAILED) ∧
    (∃ e, raise_for_status 404 = .error e ∧ e.code = .MODEL_NOT_FOUND) ∧
    (∃ e, raise_for_status 429 = .error e ∧ e.code = .RATE_LIMITED) ∧
    (∀ s, 500 ≤ s → ∃ e, raise_for_status s = .error e ∧
      e.code = .PROVIDER_UNAVAILABLE) ∧
    (∀ s, 400 ≤ s → s < 500 → s ≠ 401 → s ≠ 403 → s ≠ 404 → s ≠ 429 →
      ∃ e, raise_for_status s = .error e ∧ e.code = .PROVIDER_ERROR) := by
  refine ⟨?_, ?_, ?_, ?_, ⟨_, rfl, rfl⟩, ⟨_, rfl, rfl⟩, ⟨_, rfl, rfl⟩,
    ⟨_, rfl, rfl⟩, ?_, ?_⟩
  · intro max_retries script k s b hk hpre hresp
    have := requestAttempts_first_resp script k 0 max_retries hk
      (fun j hj => by simpa using hpre j hj) s b (by simpa using hresp)
    rw [request_with_retries, this]
    refine Prod.ext ?_ rfl
    apply List.map_congr_left
    intro i _
    simp
  · intro max_retries script hall
    have := requestAttempts_exhaust script max_retries 0
      (fun j hj => by simpa using hall j hj)
    rw [request_with_retries, this]
    refine Prod.ext ?_ rfl
    apply List.map_congr_left
    intro i _
    simp
  · intro k
    unfold retryBackoff
    congr 1
    ring
  · intro s hs
    unfold raise_for_status
    rw [if_pos hs]
  · intro s hs
    unfold raise_for_status
    rw [if_neg (by omega), if_neg (by simp [beq_iff_eq]; omega),
      if_neg (by simp [beq_iff_eq]; omega), if_neg (by simp [beq_iff_eq]; omega),
      if_pos hs]
    exact ⟨_, rfl, rfl⟩
  · intro s h400 h500 h401 h403 h404 h429
    unfold raise_for_status
    rw [if_neg (by omega), if_neg (by simp [beq_iff_eq]; tauto),
      if_neg (by simp [beq_iff_eq]; tauto), if_neg (by simp [beq_iff_eq]; tauto),
      if_neg (by omega)]
    exact ⟨_, rfl, rfl⟩

/-- Witness for C7: an immediate 429 response is returned with zero
retries and maps to `RateLimited`; an all-network-error script with two
retries sleeps the two backoffs then fails `ProviderUnavailable`. -/
theorem C7_transport_witness :
    request_with_retries 3 respScript = ([], .ok (429, "rate limited")) ∧
    (∃ e, raise_for_status 429 = .error e ∧ e.code = .RATE_LIMITED) ∧
    request_with_retries 2 netErrScript =
      ((List.range 2).map retryBackoff,
       .error ⟨.PROVIDER_UNAVAILABLE, "Provider unavailable"⟩) := by
  have t := C7_transport_retry_and_mapping
  refine ⟨?_, t.2.2.2.2.2.2.2.1, ?_⟩
  · exact t.1 3 respScript 0 429 "rate limited" (by omega)
      (fun j hj => absurd hj (by omega)) rfl
  · exact t.2.1 2 netErrScript (fun j _ => rfl)

/-- C9: when the heartbeat interval elapses before a chunk, the loop
emits exactly the SSE comment `: ping` followed by two newlines and then
resumes waiting on the same still-live provider iterator with the same
accumulator — the rest of the run is identical to the run without the
timeout, so the iterator is never discarded or restarted. -/
theorem C9_heartbeat_comment (rest : List LoopEvent) (st : LoopState) :
    runLoop (LoopEvent.timeout :: rest) st =
      (Frame.comment "ping" :: (runLoop rest st).1, (runLoop rest st).2) ∧
    (Frame.comment "ping").wire = ": ping\n\n" :=
  ⟨rfl, rfl⟩

theorem event_generator_messages_length (db : Db) (conv : ConversationRow)
    (asstId : Nat) (base : BaseMeta) (sid : Nat) (rid : Option String)
    (pid model : String) (uid : Nat) (script : List LoopEvent) :
    (event_generator db conv asstId base sid rid pid model uid
        script).1.messages.length = db.messages.length := by
  rcases hOut : (runLoop script ⟨"", none, model⟩).2.1 with _ | _ | e <;>
    simp only [event_generator, hOut] <;> rw [finalize_messages] <;>
    exact List.length_map _ _

theorem persistTurn_messages_length (db : Db) (cid : Nat)
    (input pid model : String) (settings : List (String × Json)) :
    (persistTurn db cid input pid model settings).messages.length =
      db.messages.length + 2 := by
  unfold persistTurn
  simp [create_message, List.length_append]

/-- C8: `retry_last_turn` recovers `provider_id`/`model`/`settings` from
the `provider_meta` of the assistant message at or after the last user
message; it fails with `Validation` when that metadata is absent or
malformed (undecodable, not a JSON object, or with falsy
`provider_id`/`model`); otherwise it delegates to `stream_chat` with the
recovered values and the original user input, and any such run that
reaches streaming allocates a fresh stream id — strictly above every id
the state has ever issued, hence different from the original turn's —
and persists a new pair of rows. -/
theorem C8_retry_recovery :
    (∀ db registry u cid rid script conv lastUser lastAsst,
      get_user_conversation db u cid = some conv →
      get_last_user_message db cid = some lastUser →
      get_last_assistant_message_after db cid lastUser.created_at =
        some lastAsst →
      metaUnrecoverable lastAsst.provider_meta = true →
      ∃ e, retry_last_turn db registry u cid rid script = (db, .error e) ∧
        e.code = .VALIDATION_ERROR) ∧
    (∀ db registry u cid rid script conv lastUser lastAsst meta p mdl,
      get_user_conversation db u cid = some conv →
      get_last_user_message db cid = some lastUser →
      get_last_assistant_message_after db cid lastUser.created_at =
        some lastAsst →
      lastAsst.provider_meta = some (.json meta) →
      meta.get? "provider_id" = some (.str p) → p ≠ "" →
      meta.get? "model" = some (.str mdl) → mdl ≠ "" →
      retry_last_turn db registry u cid rid script =
        stream_chat db registry u cid p mdl lastUser.content
          (settingsFields meta) rid script) ∧
    (∀ db registry u cid pid model input settings rid script out orig,
      (stream_chat db registry u cid pid model input settings rid
          script).2 = .ok out →
      orig < db.nextId →
      out.stream_id = db.nextId + 2 ∧ orig ≠ out.stream_id ∧
      out.db.messages.length = db.messages.length + 2) := by
  refine ⟨?_, ?_, ?_⟩
  · intro db registry u cid rid script conv lastUser lastAsst hconv hlu hla hbad
    unfold retry_last_turn
    simp only [hconv, hlu, hla]
    rcases hm : lastAsst.provider_meta with _ | md
    · exact ⟨_, rfl, rfl⟩
    rcases md with j | raw
    · rw [hm] at hbad
      unfold metaUnrecoverable at hbad
      by_cases hobj : j.isObj
      · simp only [hobj, Bool.not_true, Bool.false_or] at hbad
        simp only [Bool.not_eq_true] at hobj ⊢
        simp only [hobj, Bool.not_true, Bool.false_eq_true, if_false]
        simp only [hbad, if_true]
        exact ⟨_, rfl, rfl⟩
      · simp only [Bool.not_eq_true] at hobj
        simp only [hobj, Bool.not_false, if_true]
        exact ⟨_, rfl, rfl⟩
    · exact ⟨_, rfl, rfl⟩
  · intro db registry u cid rid script conv lastUser lastAsst meta p mdl
      hconv hlu hla hmeta hp hpne hmdl hmne
    unfold retry_last_turn
    simp only [hconv, hlu, hla, hmeta]
    have hobj : meta.isObj = true := by
      rcases meta with _ | _ | _ | _ | _ | fs
      all_goals first
        | rfl
        | simp [Json.get?] at hp
    simp only [hobj, Bool.not_true, Bool.false_eq_true, if_false]
    have hfals : (optFalsy (meta.get? "provider_id") ||
        optFalsy (meta.get? "model")) = false := by
      rw [hp, hmdl]
      simp [optFalsy, Json.falsy, hpne, hmne]
    simp only [hfals, Bool.false_eq_true, if_false]
    rw [hp, hmdl]
    rfl
  · intro db registry u cid pid model input settings rid script out orig h horig
    obtain ⟨conv, hconv, hq, hreg, hdb, hframes, hsid, huid, haid⟩ :=
      stream_chat_ok db registry u cid pid model input settings rid script out h
    refine ⟨hsid, by omega, ?_⟩
    rw [hdb, event_generator_messages_length, persistTurn_messages_length]

set_option maxHeartbeats 2000000 in
/-- Witness for C8: malformed metadata fails `Validation`; well-formed
metadata delegates to `stream_chat` with the recovered provider, model
and settings; the fresh stream id 12 differs from the original turn's
recorded id 5 and two rows are added. -/
theorem C8_retry_recovery_witness :
    (∃ e, retry_last_turn badRetryDb ["ollama"] 7 3 none [] =
        (badRetryDb, .error e) ∧ e.code = .VALIDATION_ERROR) ∧
    retry_last_turn retryDb ["ollama"] 7 3 none [] =
      stream_chat retryDb ["ollama"] 7 3 "ollama" "m1" "Hi"
        (settingsFields retryMetaJson) none [] ∧
    (retryOut.stream_id = retryDb.nextId + 2 ∧ (5 : Nat) ≠ retryOut.stream_id ∧
      retryOut.db.messages.length = retryDb.messages.length + 2) := by
  have t := C8_retry_recovery
  refine ⟨?_, ?_, ?_⟩
  · exact t.1 badRetryDb ["ollama"] 7 3 none [] sampleConv _ _ rfl rfl rfl rfl
  · exact t.2.1 retryDb ["ollama"] 7 3 none [] sampleConv _ _ retryMetaJson
      "ollama" "m1" rfl rfl rfl rfl rfl (by decide) rfl (by decide)
  · exact t.2.2 retryDb ["ollama"] 7 3 "ollama" "m1" "Hi"
      (settingsFields retryMetaJson) none [] retryOut 5 rfl (by decide)
